import Mathlib

/-!
Verification of the historical-data reconciliation engine of the cryptofeed
repository: gap detection, gap classification, priority calculation, tiered
backfill scheduling, chunked fetching and the store writers, as implemented in
`cryptofeed_api/services/smart_data_backfill.py`,
`cryptofeed_api/services/data_integrity.py` and
`cryptofeed_api/services/data_backfill.py`.

Conventions of the embedding:
* `datetime` values are modelled as integer Unix seconds (`Int`); the smart
  backfill chunk loop, which works in epoch milliseconds in the source, is
  modelled in integer milliseconds.
* Python `float` hour durations and priority arithmetic are modelled with
  exact rationals (`ℚ`); at the thresholds and weight tables used by the code
  the float rounding error of the source cannot cross a decision boundary.
* Store access is modelled by passing the query result (the sorted list of
  stored timestamps, or the stored rows) as an explicit argument, and the
  external provider by an explicit outcome function per gap.
-/

namespace Cryptofeed

/-- Gap urgency classes, from the `GapType` enum in `smart_data_backfill.py`. -/
inductive GapType
  | urgent
  | recent
  | historical
  | none_
deriving DecidableEq, Repr

/-- The `PreciseGap` dataclass of `smart_data_backfill.py`. -/
structure PreciseGap where
  symbol : String
  interval : String
  start_time : Int
  end_time : Int
  gap_type : GapType
  priority : Int
  expected_records : Int
  gap_duration_hours : ℚ
deriving DecidableEq, Repr

/-- The `priority_weights['time']` table of `SmartDataBackfillService.__init__`. -/
def timeWeight : GapType → Int
  | GapType.urgent => 10
  | GapType.recent => 7
  | GapType.historical => 3
  | GapType.none_ => 0

/-- The `priority_weights['interval']` table, looked up with
`.get(interval, 1)` as in `_calculate_priority`. -/
def intervalWeight (interval : String) : Int :=
  if interval = "1m" then 10
  else if interval = "5m" then 8
  else if interval = "15m" then 6
  else if interval = "30m" then 5
  else if interval = "1h" then 4
  else if interval = "4h" then 3
  else if interval = "1d" then 1
  else 1

/-- `SmartDataBackfillService._get_interval_minutes`. -/
def getIntervalMinutes (interval : String) : Int :=
  if interval = "1m" then 1
  else if interval = "5m" then 5
  else if interval = "15m" then 15
  else if interval = "30m" then 30
  else if interval = "1h" then 60
  else if interval = "4h" then 240
  else if interval = "1d" then 1440
  else 60

/-- `time_thresholds['urgent_hours']` of the smart backfill service. -/
def urgentHours : ℚ := 1

/-- `time_thresholds['recent_hours']` of the smart backfill service. -/
def recentHours : ℚ := 24

/-- Python `int()` applied to a rational that the code guarantees to be
nonnegative: truncation towards zero coincides with the floor. -/
def pyInt (q : ℚ) : Int :=
  if 0 ≤ q then Int.floor q else -Int.floor (-q)

/-- `SmartDataBackfillService._calculate_priority`: clamp(1, 10) of the
weighted sum, truncated to `int` by the final `int(priority)`. -/
def calculatePriority (gap_type : GapType) (interval : String)
    (duration_hours : ℚ) : Int :=
  let time_weight : ℚ := (timeWeight gap_type : ℤ)
  let interval_weight : ℚ := (intervalWeight interval : ℤ)
  let duration_weight : ℚ := min 5 (max 1 (duration_hours / 24))
  pyInt (min 10 (max 1
    (time_weight * (6/10) + interval_weight * (3/10) + duration_weight * (1/10))))

/-- `SmartDataBackfillService._create_gap`: builds a `PreciseGap`, choosing the
gap type from the gap DURATION (`duration_hours`), not from the distance of the
gap end to the current time. -/
def createGap (symbol interval : String) (start_ end_ : Int) : PreciseGap :=
  let duration_hours : ℚ := ((end_ - start_ : ℤ) : ℚ) / 3600
  let gap_type :=
    if duration_hours ≤ urgentHours then GapType.urgent
    else if duration_hours ≤ recentHours then GapType.recent
    else GapType.historical
  let priority := calculatePriority gap_type interval duration_hours
  let interval_minutes := getIntervalMinutes interval
  let expected_records := pyInt (duration_hours * 60 / (interval_minutes : ℤ))
  { symbol := symbol
    interval := interval
    start_time := start_
    end_time := end_
    gap_type := gap_type
    priority := priority
    expected_records := expected_records
    gap_duration_hours := duration_hours }

/-- Modelled from the spec wording of §4.2, for comparison with the code:
the type keyed by recency of the gap end, `now - gap.end`. -/
def specGapTypeByRecency (now end_ : Int) : GapType :=
  if ((now - end_ : ℤ) : ℚ) / 3600 ≤ urgentHours then GapType.urgent
  else if ((now - end_ : ℤ) : ℚ) / 3600 ≤ recentHours then GapType.recent
  else GapType.historical

/-- The middle-gap walk of `SmartDataBackfillService._find_gaps_for_source`:
for each consecutive pair, a gap `[current + delta, next)` is emitted when
`next > current + 2 * delta` (with `delta = interval_minutes` minutes). -/
def middleGapWalk (symbol interval : String) (interval_minutes : Int) :
    List Int → List PreciseGap
  | t1 :: t2 :: rest =>
      (if t1 + interval_minutes * 60 + interval_minutes * 60 < t2
       then [createGap symbol interval (t1 + interval_minutes * 60) t2]
       else [])
        ++ middleGapWalk symbol interval interval_minutes (t2 :: rest)
  | _ => []

/-- `SmartDataBackfillService._find_gaps_for_source`: the scanned window is
`[now - retention_days, now]`; `existing_times` is the store answer (the
sorted timestamps in the window). -/
def findGapsForSource (symbol interval : String) (now retention_days : Int)
    (existing_times : List Int) : List PreciseGap :=
  let expected_start := now - retention_days * 86400
  let interval_minutes := getIntervalMinutes interval
  match existing_times with
  | [] => [createGap symbol interval expected_start now]
  | first :: rest =>
      let head_gaps :=
        if expected_start < first
        then [createGap symbol interval expected_start first]
        else []
      let middle_gaps := middleGapWalk symbol interval interval_minutes (first :: rest)
      let last_time := (first :: rest).getLastD first
      let expected_latest := now - interval_minutes * 60 * 2
      let tail_gaps :=
        if last_time < expected_latest
        then [createGap symbol interval (last_time + interval_minutes * 60) now]
        else []
      head_gaps ++ middle_gaps ++ tail_gaps

/-- The `DataGap` dataclass of `data_integrity.py`. -/
structure DataGap where
  symbol : String
  data_type : String
  interval : Option String
  gap_start : Int
  gap_end : Int
  gap_duration_hours : ℚ
deriving DecidableEq, Repr

/-- Construction of a `DataGap` followed by its `__post_init__` hook, which
overwrites `gap_duration_hours` with `(gap_end - gap_start)` in hours. -/
def DataGap.make (symbol data_type : String) (interval : Option String)
    (gap_start gap_end : Int) (_gap_duration_hours_arg : ℚ) : DataGap :=
  { symbol := symbol
    data_type := data_type
    interval := interval
    gap_start := gap_start
    gap_end := gap_end
    gap_duration_hours := ((gap_end - gap_start : ℤ) : ℚ) / 3600 }

/-- `DataIntegrityChecker.supported_intervals`. -/
def supportedIntervals : List String := ["1m", "5m", "15m", "30m", "1h", "4h", "1d"]

/-- `DataIntegrityChecker.expected_intervals`, in seconds; `none` models a
missing dictionary key. -/
def expectedIntervalSeconds (interval : String) : Option Int :=
  if interval = "1m" then some 60
  else if interval = "5m" then some 300
  else if interval = "15m" then some 900
  else if interval = "30m" then some 1800
  else if interval = "1h" then some 3600
  else if interval = "4h" then some 14400
  else if interval = "1d" then some 86400
  else none

/-- The pair walk of `DataIntegrityChecker.check_candle_gaps`: a gap
`[prev + delta, curr)` whenever `curr - prev > delta + max_gap_delta`. -/
def candleGapWalk (symbol interval : String) (delta max_gap_seconds : Int) :
    List Int → List DataGap
  | prev :: curr :: rest =>
      (if delta + max_gap_seconds < curr - prev
       then [DataGap.make symbol "candles" (some interval) (prev + delta) curr 0]
       else [])
        ++ candleGapWalk symbol interval delta max_gap_seconds (curr :: rest)
  | _ => []

/-- `DataIntegrityChecker.check_candle_gaps`: the unsupported-interval check
precedes every store access, so the `timestamps` argument (the store answer)
cannot influence it; with fewer than two timestamps the function returns an
empty list. -/
def checkCandleGaps (symbol interval : String) (timestamps : List Int)
    (max_gap_minutes : Int) : Except String (List DataGap) :=
  match expectedIntervalSeconds interval with
  | none => Except.error ("Unsupported interval: " ++ interval)
  | some delta =>
      if timestamps.length < 2 then Except.ok []
      else Except.ok (candleGapWalk symbol interval delta (max_gap_minutes * 60) timestamps)

/-- The fixed batch span of `_fill_single_gap`: `7 * 24 * 60 * 60 * 1000`
milliseconds (seven days) per provider call. -/
def chunkMs : Int := 7 * 24 * 60 * 60 * 1000

/-- The chunk loop of `SmartDataBackfillService._fill_single_gap`, in epoch
milliseconds: while `current_start < end_ms`, fetch
`[current_start, min (current_start + chunkMs) end_ms]` (the provider treats
both bounds as inclusive) and continue from `current_end + 1`. -/
def fillGapChunks (current_start end_ms : Int) : List (Int × Int) :=
  if h : current_start < end_ms then
    let current_end := min (current_start + chunkMs) end_ms
    (current_start, current_end) :: fillGapChunks (current_end + 1) end_ms
  else []
termination_by (end_ms - current_start).toNat
decreasing_by
  have hmin : current_start + 1 ≤ min (current_start + chunkMs) end_ms :=
    le_min (by norm_num [chunkMs]) (by omega)
  omega

/-- The per-interval batch span of `DataBackfillService.backfill_candles`, in
days (`batch_days`), looked up with default 30. -/
def batchDays (interval : String) : Int :=
  if interval = "1d" then 365
  else if interval = "4h" then 180
  else if interval = "30m" then 30
  else if interval = "5m" then 7
  else if interval = "1m" then 3
  else 30

/-- The chunk loop of `DataBackfillService.backfill_candles`, in seconds:
while `current_start < end_time`, fetch
`[current_start, min (current_start + batch_days) end_time]` and continue from
`current_end` itself (not `current_end + 1`), so consecutive provider calls
share their boundary timestamp. -/
def backfillCandlesChunks (interval : String) (current_start end_time : Int) :
    List (Int × Int) :=
  if h : current_start < end_time then
    let current_end := min (current_start + batchDays interval * 86400) end_time
    (current_start, current_end) :: backfillCandlesChunks interval current_end end_time
  else []
termination_by (end_time - current_start).toNat
decreasing_by
  have hd : (3 : Int) ≤ batchDays interval := by
    unfold batchDays
    split_ifs <;> norm_num
  have hmin : current_start + 1 ≤ min (current_start + batchDays interval * 86400) end_time :=
    le_min (by nlinarith) (by omega)
  omega

/-- One row of the `candles` store, reduced to the columns the reconciliation
engine reads back (symbol, interval, timestamp). -/
structure CandleRow where
  symbol : String
  interval : String
  timestamp : Int
deriving DecidableEq, Repr

/-- The duplicate probe of `backfill_candles`:
`SELECT COUNT(*) FROM candles WHERE symbol = .. AND interval = .. AND
timestamp >= first AND timestamp <= last`. -/
def countInRange (store : List CandleRow) (symbol interval : String)
    (lo hi : Int) : Nat :=
  store.countP (fun r =>
    decide (r.symbol = symbol ∧ r.interval = interval ∧ lo ≤ r.timestamp ∧ r.timestamp ≤ hi))

/-- The write step of `DataBackfillService.backfill_candles` for one fetched
batch (given as its list of open timestamps, in provider order): if ANY row
already exists between the batch's first and last timestamp, the whole batch
is skipped; otherwise all rows are inserted. There is no per-row filtering. -/
def writeBatchSkip (store : List CandleRow) (symbol interval : String)
    (batch : List Int) : List CandleRow :=
  match batch with
  | [] => store
  | first :: rest =>
      let last_time := (first :: rest).getLastD first
      if 0 < countInRange store symbol interval first last_time then store
      else store ++ (first :: rest).map (fun t => ⟨symbol, interval, t⟩)

/-- `SmartDataBackfillService._insert_klines_data`: converts every kline of
the fetched batch and inserts all of them, with no existence check, returning
the number of prepared rows. -/
def insertKlinesData (store : List CandleRow) (symbol interval : String)
    (klines : List Int) : List CandleRow × Nat :=
  let insert_data := klines.map (fun t => (⟨symbol, interval, t⟩ : CandleRow))
  (store ++ insert_data, insert_data.length)

/-- Aggregate of `SmartDataBackfillService._fill_gaps_batch`. -/
structure BatchResults where
  completed : Nat
  records_filled : Nat
  errors : List String
deriving DecidableEq, Repr

/-- The error string built by `_fill_gaps_batch` for one failed gap. -/
def fillErrorMsg (gap : PreciseGap) (e : String) : String :=
  "填充失败: " ++ gap.symbol ++ " " ++ gap.interval ++ " - " ++ e

/-- `SmartDataBackfillService._fill_gaps_batch`: each gap is attempted in
order through `_fill_single_gap`, whose result is modelled by the `outcome`
function (`Except.ok records` on success, `Except.error msg` when the fill
raises); an exception is caught, recorded for that gap, and iteration
continues.  Besides the aggregate, the model returns the trace of attempted
gaps with their outcomes, in execution order. -/
def fillGapsBatch (outcome : PreciseGap → Except String Nat) :
    List PreciseGap → BatchResults × List (PreciseGap × Except String Nat)
  | [] => (⟨0, 0, []⟩, [])
  | gap :: rest =>
      let r := fillGapsBatch outcome rest
      match outcome gap with
      | Except.ok n =>
          (⟨r.1.completed + 1, r.1.records_filled + n, r.1.errors⟩,
            (gap, outcome gap) :: r.2)
      | Except.error e =>
          (⟨r.1.completed, r.1.records_filled, fillErrorMsg gap e :: r.1.errors⟩,
            (gap, outcome gap) :: r.2)

/-- The tier dictionary built by
`SmartDataBackfillService._classify_gaps_by_priority`. -/
structure ClassifiedGaps where
  urgent : List PreciseGap
  recent : List PreciseGap
  historical : List PreciseGap
deriving DecidableEq, Repr

/-- `SmartDataBackfillService._classify_gaps_by_priority`: urgent and recent
gaps go to their tier, everything else (historical and none) to the
historical tier, preserving order. -/
def classifyGapsByPriority (gaps : List PreciseGap) : ClassifiedGaps :=
  gaps.foldl (fun c gap =>
    if gap.gap_type = GapType.urgent then { c with urgent := c.urgent ++ [gap] }
    else if gap.gap_type = GapType.recent then { c with recent := c.recent ++ [gap] }
    else { c with historical := c.historical ++ [gap] })
    ⟨[], [], []⟩

/-- Aggregate returned by
`SmartDataBackfillService._execute_prioritized_backfill`. -/
structure CycleResults where
  urgent_completed : Nat
  recent_completed : Nat
  historical_completed : Nat
  total_records_filled : Nat
  errors : List String
deriving DecidableEq, Repr

/-- `SmartDataBackfillService._execute_prioritized_backfill`: the urgent batch
is awaited to completion, then the recent batch, then the historical batch
truncated to its first 5 gaps (`classified_gaps['historical'][:5]`); each
tier's aggregate feeds the cycle result.  The model also returns the combined
execution trace. -/
def executePrioritizedBackfill (outcome : PreciseGap → Except String Nat)
    (classified : ClassifiedGaps) :
    CycleResults × List (PreciseGap × Except String Nat) :=
  let u := if classified.urgent.isEmpty then (⟨0, 0, []⟩, [])
           else fillGapsBatch outcome classified.urgent
  let r := if classified.recent.isEmpty then (⟨0, 0, []⟩, [])
           else fillGapsBatch outcome classified.recent
  let h := if classified.historical.isEmpty then (⟨0, 0, []⟩, [])
           else fillGapsBatch outcome (classified.historical.take 5)
  ({ urgent_completed := u.1.completed
     recent_completed := r.1.completed
     historical_completed := h.1.completed
     total_records_filled := u.1.records_filled + r.1.records_filled + h.1.records_filled
     errors := u.1.errors ++ r.1.errors ++ h.1.errors },
   u.2 ++ r.2 ++ h.2)

/-- `SmartDataBackfillService._get_last_check_time`: the stored
`MAX(last_check_time)` when a checkpoint row exists, and `now - 24h`
otherwise. -/
def getLastCheckTime (stored : Option Int) (now : Int) : Int :=
  match stored with
  | some t => t
  | none => now - 24 * 3600

/-- `SmartDataBackfillService._detect_startup_gaps`: for every monitored
(symbol, interval) pair one gap `[last_check, now)` is synthesized, with its
priority raised by 2 (clamped at 10); with no last-check time the function
returns no gaps. -/
def detectStartupGaps (symbols intervals : List String)
    (last_check : Option Int) (now : Int) : List PreciseGap :=
  match last_check with
  | none => []
  | some lc =>
      symbols.flatMap (fun symbol => intervals.map (fun interval =>
        let g := createGap symbol interval lc now
        { g with priority := min 10 (g.priority + 2) }))

/-- The error entry `_fill_gaps_batch` records for one gap: `none` when the
fill succeeds, the formatted message when it raises. -/
def errOf (outcome : PreciseGap → Except String Nat) (gap : PreciseGap) :
    Option String :=
  match outcome gap with
  | Except.ok _ => none
  | Except.error e => some (fillErrorMsg gap e)

/-- A sample provider behaviour: filling any gap of symbol `FAIL` raises,
every other gap fills 3 records. -/
def sampleOutcome (gap : PreciseGap) : Except String Nat :=
  if gap.symbol = "FAIL" then Except.error "boom" else Except.ok 3

/-- A sample two-hour gap whose fill raises. -/
def sampleGapFail : PreciseGap :=
  ⟨"FAIL", "1m", 0, 7200, GapType.recent, 7, 120, 2⟩

/-- A sample two-hour gap whose fill succeeds. -/
def sampleGapOk : PreciseGap :=
  ⟨"OK-SYM", "1m", 0, 7200, GapType.recent, 7, 120, 2⟩

/-! ## Helper lemmas -/

/-- The configured interval-weight table only produces values between 1 and 10
(the `.get(interval, 1)` default included). -/
theorem intervalWeight_bounds (interval : String) :
    1 ≤ intervalWeight interval ∧ intervalWeight interval ≤ 10 := by
  unfold intervalWeight
  split_ifs <;> norm_num

/-- Clamping to `[1, 10]` is the identity on values already inside the range. -/
theorem clamp_eq_self {x : ℚ} (h1 : 1 ≤ x) (h10 : x ≤ 10) :
    min 10 (max 1 x) = x := by
  rw [max_eq_right h1, min_eq_right h10]

/-- `expectedIntervalSeconds` has a key exactly for the supported intervals. -/
theorem expectedIntervalSeconds_none_iff (interval : String) :
    expectedIntervalSeconds interval = none ↔ interval ∉ supportedIntervals := by
  unfold expectedIntervalSeconds supportedIntervals
  split_ifs with h1 h2 h3 h4 h5 h6 h7 <;> simp_all

/-! ## C8 — `DataGap.__post_init__` always recomputes the duration -/

/-- C8: after construction, `gap_duration_hours` equals
`(gap_end - gap_start)` in hours, whatever duration value was passed to the
constructor: the `__post_init__` hook always recomputes it, so two
constructions differing only in the passed duration coincide. -/
theorem DataGap_post_init_recomputes_duration
    (symbol data_type : String) (interval : Option String)
    (gap_start gap_end : Int) (d1 d2 : ℚ) :
    (DataGap.make symbol data_type interval gap_start gap_end d1).gap_duration_hours
        = ((gap_end - gap_start : ℤ) : ℚ) / 3600
      ∧ DataGap.make symbol data_type interval gap_start gap_end d1
        = DataGap.make symbol data_type interval gap_start gap_end d2 := by
  exact ⟨rfl, rfl⟩

/-! ## C9 — `check_candle_gaps` rejects exactly the unsupported intervals -/

/-- C9: `check_candle_gaps` fails with the `Unsupported interval` `ValueError`
exactly when the interval is outside the seven supported intervals, for every
store content (the check precedes any store access, so the timestamps cannot
influence it), and never fails for a supported interval. -/
theorem checkCandleGaps_unsupported_interval_iff
    (symbol interval : String) (timestamps : List Int) (max_gap_minutes : Int) :
    (∃ msg, checkCandleGaps symbol interval timestamps max_gap_minutes
        = Except.error msg)
      ↔ interval ∉ supportedIntervals := by
  rw [← expectedIntervalSeconds_none_iff]
  unfold checkCandleGaps
  cases h : expectedIntervalSeconds interval with
  | none => simp
  | some delta =>
      simp only [h]
      split <;> simp

/-! ## C2 — detection on a series with zero stored timestamps -/

/-- C2 counterexample: `DataIntegrityChecker.check_candle_gaps`, run on a
series with ZERO stored timestamps in the scanned window, does not return
exactly one whole-window gap: it takes the `len(timestamps) < 2` early return
and reports no gap at all. -/
theorem checkCandleGaps_empty_counterexample :
    ¬ ∃ g : DataGap,
        checkCandleGaps "BTC-USDT-PERP" "1m" [] 30 = Except.ok [g] := by
  rintro ⟨g, h⟩
  simp [checkCandleGaps, expectedIntervalSeconds] at h

/-- C2 amended: the smart service's detector,
`SmartDataBackfillService._find_gaps_for_source`, does return exactly one gap
equal to the scanned window `[now - retention_days, now]` when the store holds
no timestamp for the series; `DataIntegrityChecker.check_candle_gaps` instead
returns an empty list whenever fewer than two timestamps exist. -/
theorem findGapsForSource_empty_whole_window
    (symbol interval : String) (now retention_days : Int) :
    findGapsForSource symbol interval now retention_days []
        = [createGap symbol interval (now - retention_days * 86400) now]
      ∧ (createGap symbol interval (now - retention_days * 86400) now).start_time
        = now - retention_days * 86400
      ∧ (createGap symbol interval (now - retention_days * 86400) now).end_time
        = now := by
  exact ⟨rfl, rfl, rfl⟩

/-! ## C4 — gap type is keyed by duration, not by recency of the gap end -/

/-- C4 counterexample: with `now = 1000000`, the gap `[640000, 643600)` ended
99 hours before `now`, so the spec's recency rule demands `Historical`; the
code's `_create_gap` looks at the 1-hour DURATION instead and returns
`Urgent`. -/
theorem createGap_type_counterexample :
    (createGap "BTC-USDT-PERP" "1m" 640000 643600).gap_type = GapType.urgent
      ∧ specGapTypeByRecency 1000000 643600 = GapType.historical
      ∧ GapType.urgent ≠ GapType.historical := by
  refine ⟨?_, ?_, by decide⟩
  · norm_num [createGap, urgentHours]
  · norm_num [specGapTypeByRecency, urgentHours, recentHours]

/-- C4 amended: `_create_gap` assigns the type from the gap's duration
`end - start`: `Urgent` when it is at most one hour, `Recent` when at most 24
hours, `Historical` otherwise; the current time plays no role. -/
theorem createGap_type_by_duration (symbol interval : String) (start_ end_ : Int) :
    ((createGap symbol interval start_ end_).gap_type = GapType.urgent
        ↔ end_ - start_ ≤ 3600)
      ∧ ((createGap symbol interval start_ end_).gap_type = GapType.recent
        ↔ 3600 < end_ - start_ ∧ end_ - start_ ≤ 86400)
      ∧ ((createGap symbol interval start_ end_).gap_type = GapType.historical
        ↔ 86400 < end_ - start_) := by
  have h1 : ((end_ - start_ : ℤ) : ℚ) / 3600 ≤ urgentHours ↔ end_ - start_ ≤ 3600 := by
    rw [urgentHours, div_le_one (by norm_num)]
    exact_mod_cast Iff.rfl
  have h24 : ((end_ - start_ : ℤ) : ℚ) / 3600 ≤ recentHours ↔ end_ - start_ ≤ 86400 := by
    rw [recentHours, div_le_iff₀ (by norm_num)]
    have : ((86400 : ℤ) : ℚ) = 24 * 3600 := by norm_num
    rw [← this]
    exact_mod_cast Iff.rfl
  simp only [createGap]
  by_cases hu : ((end_ - start_ : ℤ) : ℚ) / 3600 ≤ urgentHours
  · have hz := h1.mp hu
    rw [if_pos hu]
    exact ⟨⟨fun _ => hz, fun _ => rfl⟩,
      ⟨fun h => GapType.noConfusion h, fun h => absurd h.1 (by omega)⟩,
      ⟨fun h => GapType.noConfusion h, fun h => absurd h (by omega)⟩⟩
  · have hgt : 3600 < end_ - start_ := by
      by_contra hc
      exact hu (h1.mpr (by omega))
    by_cases hr : ((end_ - start_ : ℤ) : ℚ) / 3600 ≤ recentHours
    · have hle := h24.mp hr
      rw [if_neg hu, if_pos hr]
      exact ⟨⟨fun h => GapType.noConfusion h, fun h => absurd h (by omega)⟩,
        ⟨fun _ => ⟨hgt, hle⟩, fun _ => rfl⟩,
        ⟨fun h => GapType.noConfusion h, fun h => absurd hle (by omega)⟩⟩
    · have hgt24 : 86400 < end_ - start_ := by
        by_contra hc
        exact hr (h24.mpr (by omega))
      rw [if_neg hu, if_neg hr]
      exact ⟨⟨fun h => GapType.noConfusion h, fun h => absurd h (by omega)⟩,
        ⟨fun h => GapType.noConfusion h, fun h => absurd h.2 (by omega)⟩,
        ⟨fun _ => hgt24, fun _ => rfl⟩⟩

/-! ## C5 — Urgent priority strictly dominates Historical priority -/

/-- C5: for any duration and any interval weights drawn from the configured
table (lookup with its default included), the priority computed for an
`Urgent` gap strictly exceeds the one computed for a `Historical` gap of the
same duration: the Urgent weighted sum lies in `[6.4, 9.5]` and truncates to
at least 6, while the Historical sum lies in `[2.2, 5.3]` and truncates to at
most 5. -/
theorem calculatePriority_urgent_gt_historical
    (interval1 interval2 : String) (duration_hours : ℚ) :
    calculatePriority GapType.historical interval2 duration_hours
      < calculatePriority GapType.urgent interval1 duration_hours := by
  obtain ⟨hw1a, hw1b⟩ := intervalWeight_bounds interval1
  obtain ⟨hw2a, hw2b⟩ := intervalWeight_bounds interval2
  have hq1a : (1 : ℚ) ≤ ((intervalWeight interval1 : ℤ) : ℚ) := by exact_mod_cast hw1a
  have hq1b : ((intervalWeight interval1 : ℤ) : ℚ) ≤ 10 := by exact_mod_cast hw1b
  have hq2a : (1 : ℚ) ≤ ((intervalWeight interval2 : ℤ) : ℚ) := by exact_mod_cast hw2a
  have hq2b : ((intervalWeight interval2 : ℤ) : ℚ) ≤ 10 := by exact_mod_cast hw2b
  unfold calculatePriority
  simp only [timeWeight]
  set dw : ℚ := min 5 (max 1 (duration_hours / 24)) with hdw
  have hdw1 : 1 ≤ dw := le_min (by norm_num) (le_max_left _ _)
  have hdw5 : dw ≤ 5 := min_le_left _ _
  set xu : ℚ :=
    ((10 : ℤ) : ℚ) * (6/10) + ((intervalWeight interval1 : ℤ) : ℚ) * (3/10) + dw * (1/10)
    with hxu
  set xh : ℚ :=
    ((3 : ℤ) : ℚ) * (6/10) + ((intervalWeight interval2 : ℤ) : ℚ) * (3/10) + dw * (1/10)
    with hxh
  have hxu1 : (1 : ℚ) ≤ xu := by rw [hxu]; push_cast; linarith
  have hxu10 : xu ≤ 10 := by rw [hxu]; push_cast; linarith
  have hxh1 : (1 : ℚ) ≤ xh := by rw [hxh]; push_cast; linarith
  have hxh10 : xh ≤ 10 := by rw [hxh]; push_cast; linarith
  rw [clamp_eq_self hxu1 hxu10, clamp_eq_self hxh1 hxh10]
  rw [pyInt, pyInt, if_pos (by linarith), if_pos (by linarith)]
  have h6u : (6 : ℤ) ≤ Int.floor xu := by
    rw [Int.le_floor]
    rw [hxu]; push_cast; linarith
  have h6h : Int.floor xh < (6 : ℤ) := by
    rw [Int.floor_lt]
    rw [hxh]; push_cast; linarith
  omega

/-! ## C6 — chunked fetching -/

/-- One-step unfolding of the `_fill_single_gap` chunk loop. -/
theorem fillGapChunks_eq (s e : Int) :
    fillGapChunks s e =
      if s < e then
        (s, min (s + chunkMs) e) :: fillGapChunks (min (s + chunkMs) e + 1) e
      else [] := by
  rw [fillGapChunks]
  split <;> rfl

/-- One-step unfolding of the `backfill_candles` chunk loop. -/
theorem backfillCandlesChunks_eq (interval : String) (s e : Int) :
    backfillCandlesChunks interval s e =
      if s < e then
        (s, min (s + batchDays interval * 86400) e)
          :: backfillCandlesChunks interval (min (s + batchDays interval * 86400) e) e
      else [] := by
  rw [backfillCandlesChunks]
  split <;> rfl

/-- Invariants of the `_fill_single_gap` chunk loop, by strong induction on
the window length: the chunk list is nonempty, starts at `s`, every boundary
satisfies `previous end + 1 = next start` (contiguous with neither hole nor
overlap at millisecond granularity), chunks are pairwise disjoint, stay inside
`[s, e]`, and cover every millisecond of `[s, e)`. -/
theorem fillGapChunks_props (n : ℕ) :
    ∀ s e : Int, (e - s).toNat ≤ n → s < e →
      fillGapChunks s e ≠ []
        ∧ (fillGapChunks s e).head?.map Prod.fst = some s
        ∧ List.Chain' (fun p q => p.2 + 1 = q.1) (fillGapChunks s e)
        ∧ List.Pairwise (fun p q => p.2 < q.1) (fillGapChunks s e)
        ∧ (∀ p ∈ fillGapChunks s e, s ≤ p.1 ∧ p.1 ≤ p.2 ∧ p.2 ≤ e)
        ∧ (∀ t : Int, s ≤ t → t < e → ∃ p ∈ fillGapChunks s e, p.1 ≤ t ∧ t ≤ p.2) := by
  induction n with
  | zero =>
      intro s e hn hlt
      omega
  | succ n ih =>
      intro s e hn hlt
      have hc1 : s + 1 ≤ min (s + chunkMs) e := le_min (by norm_num [chunkMs]) (by omega)
      have hc2 : min (s + chunkMs) e ≤ e := min_le_right _ _
      rw [fillGapChunks_eq, if_pos hlt]
      set ce := min (s + chunkMs) e with hce
      by_cases hrec : ce + 1 < e
      · obtain ⟨hne, hhead, hchain, hpw, hbnd, hcov⟩ := ih (ce + 1) e (by omega) hrec
        refine ⟨by simp, by simp, ?_, ?_, ?_, ?_⟩
        · rw [List.chain'_cons']
          refine ⟨?_, hchain⟩
          intro q hq
          rw [Option.mem_def] at hq
          have : (fillGapChunks (ce + 1) e).head?.map Prod.fst = some q.1 := by
            rw [hq]; rfl
          rw [hhead] at this
          exact Option.some_injective _ this
        · rw [List.pairwise_cons]
          refine ⟨?_, hpw⟩
          intro q hq
          have := (hbnd q hq).1
          omega
        · intro p hp
          rcases List.mem_cons.mp hp with hp | hp
          · subst hp
            exact ⟨le_refl s, by omega, hc2⟩
          · obtain ⟨h1, h2, h3⟩ := hbnd p hp
            exact ⟨by omega, h2, h3⟩
        · intro t hst hte
          by_cases hts : t ≤ ce
          · exact ⟨(s, ce), List.mem_cons_self _ _, hst, hts⟩
          · obtain ⟨p, hp, hp1, hp2⟩ := hcov t (by omega) hte
            exact ⟨p, List.mem_cons_of_mem _ hp, hp1, hp2⟩
      · have htail : fillGapChunks (ce + 1) e = [] := by
          rw [fillGapChunks_eq, if_neg hrec]
        rw [htail]
        refine ⟨by simp, by simp, List.chain'_singleton _, List.pairwise_singleton _ _, ?_, ?_⟩
        · intro p hp
          rcases List.mem_cons.mp hp with hp | hp
          · subst hp
            exact ⟨le_refl s, by omega, hc2⟩
          · simp at hp
        · intro t hst hte
          exact ⟨(s, ce), List.mem_cons_self _ _, hst, by omega⟩

/-- C6 amended: the smart service's `_fill_single_gap` partitions a gap
exactly, at the source's millisecond granularity: the fetch ranges start at
the gap start, each next range starts one millisecond after the previous one
ends (no hole and no overlap at any boundary), the ranges are pairwise
disjoint, stay inside the gap, and jointly cover every millisecond of
`[start, end)`; a 10-day gap against the loop's fixed 7-day window yields
exactly 2 fetch calls.  (The source has no 5-day window; `backfill_candles`
chunks moreover share boundary timestamps, see the counterexample.) -/
theorem fillGapChunks_partition :
    (∀ s e : Int, s < e →
        fillGapChunks s e ≠ []
          ∧ (fillGapChunks s e).head?.map Prod.fst = some s
          ∧ List.Chain' (fun p q => p.2 + 1 = q.1) (fillGapChunks s e)
          ∧ List.Pairwise (fun p q => p.2 < q.1) (fillGapChunks s e)
          ∧ (∀ p ∈ fillGapChunks s e, s ≤ p.1 ∧ p.1 ≤ p.2 ∧ p.2 ≤ e)
          ∧ (∀ t : Int, s ≤ t → t < e → ∃ p ∈ fillGapChunks s e, p.1 ≤ t ∧ t ≤ p.2))
      ∧ (fillGapChunks 0 864000000).length = 2 := by
  constructor
  · intro s e hlt
    exact fillGapChunks_props (e - s).toNat s e le_rfl hlt
  · have h1 : fillGapChunks 0 864000000
        = (0, 604800000) :: fillGapChunks 604800001 864000000 := by
      rw [fillGapChunks_eq, if_pos (by norm_num)]
      norm_num [chunkMs, min_def]
    have h2 : fillGapChunks 604800001 864000000
        = (604800001, 864000000) :: fillGapChunks 864000001 864000000 := by
      rw [fillGapChunks_eq, if_pos (by norm_num)]
      norm_num [chunkMs, min_def]
    have h3 : fillGapChunks 864000001 864000000 = [] := by
      rw [fillGapChunks_eq, if_neg (by norm_num)]
    rw [h1, h2, h3]
    rfl

/-- C6 witness: the general partition statement instantiated on the 10-day
millisecond window `[0, 864000000)`. -/
theorem fillGapChunks_partition_witness :
    (0 : Int) < 864000000
      ∧ (fillGapChunks 0 864000000 ≠ []
          ∧ (fillGapChunks 0 864000000).head?.map Prod.fst = some 0
          ∧ List.Chain' (fun p q => p.2 + 1 = q.1) (fillGapChunks 0 864000000)
          ∧ List.Pairwise (fun p q => p.2 < q.1) (fillGapChunks 0 864000000)
          ∧ (∀ p ∈ fillGapChunks 0 864000000, 0 ≤ p.1 ∧ p.1 ≤ p.2 ∧ p.2 ≤ 864000000)
          ∧ (∀ t : Int, 0 ≤ t → t < 864000000 →
              ∃ p ∈ fillGapChunks 0 864000000, p.1 ≤ t ∧ t ≤ p.2)) :=
  ⟨by norm_num, fillGapChunks_partition.1 0 864000000 (by norm_num)⟩

/-- C6 counterexample: `backfill_candles` advances the next batch start to the
PREVIOUS batch end (`current_start = current_end`, no `+ 1`), so for a 10-day
gap at interval `5m` (7-day batches) the two provider calls are
`[0, 604800]` and `[604800, 864000]` — both inclusive fetch ranges contain the
boundary timestamp 604800, refuting "no overlap at any chunk boundary".  (No
5-day maximum window exists in the code: the batch spans are
365/180/30/7/3 days.) -/
theorem backfillCandlesChunks_boundary_overlap_counterexample :
    backfillCandlesChunks "5m" 0 864000 = [(0, 604800), (604800, 864000)]
      ∧ (∃ p ∈ backfillCandlesChunks "5m" 0 864000,
          ∃ q ∈ backfillCandlesChunks "5m" 0 864000,
            p ≠ q ∧ p.1 ≤ 604800 ∧ 604800 ≤ p.2 ∧ q.1 ≤ 604800 ∧ 604800 ≤ q.2) := by
  have hb : batchDays "5m" * 86400 = 604800 := by rfl
  have h1 : backfillCandlesChunks "5m" 0 864000
      = (0, 604800) :: backfillCandlesChunks "5m" 604800 864000 := by
    rw [backfillCandlesChunks_eq, if_pos (by norm_num)]
    rw [hb]
    norm_num [min_def]
  have h2 : backfillCandlesChunks "5m" 604800 864000
      = (604800, 864000) :: backfillCandlesChunks "5m" 864000 864000 := by
    rw [backfillCandlesChunks_eq, if_pos (by norm_num)]
    rw [hb]
    norm_num [min_def]
  have h3 : backfillCandlesChunks "5m" 864000 864000 = [] := by
    rw [backfillCandlesChunks_eq, if_neg (by norm_num)]
  have h : backfillCandlesChunks "5m" 0 864000 = [(0, 604800), (604800, 864000)] := by
    rw [h1, h2, h3]
  refine ⟨h, (0, 604800), by rw [h]; simp, (604800, 864000), by rw [h]; simp,
    by decide, by norm_num, by norm_num, by norm_num, by norm_num⟩

/-! ## C1 — store writer -/

/-- The head of an ascending chain is at most its last element. -/
theorem chain_head_le_getLastD :
    ∀ (l : List Int) (a : Int), List.Chain' (· ≤ ·) (a :: l) → a ≤ (a :: l).getLastD a := by
  intro l
  induction l with
  | nil =>
      intro a _
      simp [List.getLastD]
  | cons b t ih =>
      intro a h
      rw [List.chain'_cons] at h
      have hb := ih b h.2
      rw [List.getLastD_cons] at hb
      rw [List.getLastD_cons, List.getLastD_cons]
      exact le_trans h.1 hb

/-- C1 counterexample, two parts.  First: the `backfill_candles` writer does
NOT filter the batch to previously-absent rows — with row `t = 0` already
stored and batch `[0, 60]`, the spec's filter-then-insert demands a final row
count of 2 (row 60 inserted), but the code finds `COUNT > 0` in the batch
range and skips the whole batch, leaving 1 row.  Second: the smart service's
`_insert_klines_data` performs no existence check at all, so invoking it twice
with the identical batch does not leave the same row count as invoking it
once. -/
theorem storeWriter_not_per_row_filtering_counterexample :
    (writeBatchSkip [⟨"BTC-USDT-PERP", "1m", 0⟩] "BTC-USDT-PERP" "1m" [0, 60]).length ≠ 2
      ∧ (insertKlinesData (insertKlinesData [] "BTC-USDT-PERP" "1m" [0]).1
            "BTC-USDT-PERP" "1m" [0]).1.length
        ≠ (insertKlinesData [] "BTC-USDT-PERP" "1m" [0]).1.length := by
  constructor <;> decide

/-- C1 amended: the `backfill_candles` write step is idempotent at BATCH
granularity, not by per-row filtering: it counts the rows already stored in
`[batch.first, batch.last]` for the (symbol, interval) and skips the entire
batch when any exist, so — the provider returning timestamps in ascending
order — invoking the writer twice with an identical batch leaves the store,
and hence the row count, exactly as after one invocation.
(`_insert_klines_data` has no such check; see the counterexample.) -/
theorem writeBatchSkip_idempotent (store : List CandleRow) (symbol interval : String)
    (batch : List Int) (hsorted : List.Chain' (· ≤ ·) batch) :
    writeBatchSkip (writeBatchSkip store symbol interval batch) symbol interval batch
      = writeBatchSkip store symbol interval batch := by
  cases batch with
  | nil => rfl
  | cons first rest =>
      have hfl : first ≤ (first :: rest).getLastD first :=
        chain_head_le_getLastD rest first hsorted
      by_cases hcnt : 0 < countInRange store symbol interval first ((first :: rest).getLastD first)
      · have h1 : writeBatchSkip store symbol interval (first :: rest) = store := by
          simp only [writeBatchSkip]
          rw [if_pos hcnt]
        rw [h1]
        exact h1
      · have h1 : writeBatchSkip store symbol interval (first :: rest)
            = store ++ (first :: rest).map (fun t => ⟨symbol, interval, t⟩) := by
          simp only [writeBatchSkip]
          rw [if_neg hcnt]
        rw [h1]
        have h2 : 0 < countInRange
            (store ++ (first :: rest).map (fun t => ⟨symbol, interval, t⟩))
            symbol interval first ((first :: rest).getLastD first) := by
          unfold countInRange
          rw [List.countP_append]
          have hpos : 0 < List.countP
              (fun (r : CandleRow) => decide (r.symbol = symbol ∧ r.interval = interval
                ∧ first ≤ r.timestamp ∧ r.timestamp ≤ (first :: rest).getLastD first))
              ((first :: rest).map (fun t => (⟨symbol, interval, t⟩ : CandleRow))) := by
            rw [List.countP_pos_iff]
            refine ⟨⟨symbol, interval, first⟩, ?_, ?_⟩
            · exact List.mem_map.mpr ⟨first, List.mem_cons_self _ _, rfl⟩
            · have hfl2 := hfl
              simp only [List.getLastD_eq_getLast?] at hfl2
              simp [hfl2]
          omega
        simp only [writeBatchSkip]
        rw [if_pos h2]

/-- C1 witness: the amended idempotence applied to the empty store and the
ascending two-candle batch `[0, 60]`. -/
theorem writeBatchSkip_idempotent_witness :
    List.Chain' (· ≤ ·) [(0 : Int), 60]
      ∧ writeBatchSkip (writeBatchSkip [] "BTC-USDT-PERP" "1m" [0, 60])
          "BTC-USDT-PERP" "1m" [0, 60]
        = writeBatchSkip [] "BTC-USDT-PERP" "1m" [0, 60] := by
  have hch : List.Chain' (· ≤ ·) [(0 : Int), 60] :=
    List.chain'_cons.mpr ⟨by norm_num, List.chain'_singleton _⟩
  exact ⟨hch, writeBatchSkip_idempotent [] "BTC-USDT-PERP" "1m" [0, 60] hch⟩

/-! ## C3 and C7 — the tiered remediation cycle -/

/-- `_fill_gaps_batch` attempts exactly the gaps it is given, in their order,
regardless of individual outcomes. -/
theorem fillGapsBatch_trace (outcome : PreciseGap → Except String Nat) :
    ∀ gaps : List PreciseGap,
      (fillGapsBatch outcome gaps).2 = gaps.map (fun g => (g, outcome g)) := by
  intro gaps
  induction gaps with
  | nil => rfl
  | cons gap rest ih =>
      cases h : outcome gap <;> simp [fillGapsBatch, h, ih]

/-- `_fill_gaps_batch` records one error entry per failing gap, in order. -/
theorem fillGapsBatch_errors (outcome : PreciseGap → Except String Nat) :
    ∀ gaps : List PreciseGap,
      (fillGapsBatch outcome gaps).1.errors = gaps.filterMap (errOf outcome) := by
  intro gaps
  induction gaps with
  | nil => rfl
  | cons gap rest ih =>
      cases h : outcome gap <;> simp [fillGapsBatch, errOf, h, ih]

/-- `_fill_gaps_batch` counts one completion per succeeding gap. -/
theorem fillGapsBatch_completed (outcome : PreciseGap → Except String Nat) :
    ∀ gaps : List PreciseGap,
      (fillGapsBatch outcome gaps).1.completed
        = (gaps.filter (fun g => (outcome g).isOk)).length := by
  intro gaps
  induction gaps with
  | nil => rfl
  | cons gap rest ih =>
      cases h : outcome gap <;>
        simp [fillGapsBatch, h, ih, List.filter_cons, Except.isOk, Except.toBool]

/-- The `if gaps:` guards of `_execute_prioritized_backfill` only skip
logging: an empty tier and a batch run over the empty list coincide. -/
theorem batchIf_eq (outcome : PreciseGap → Except String Nat) (l : List PreciseGap) :
    (if l.isEmpty then ((⟨0, 0, []⟩ : BatchResults),
        ([] : List (PreciseGap × Except String Nat)))
      else fillGapsBatch outcome l) = fillGapsBatch outcome l := by
  split
  · next h =>
      rw [List.isEmpty_iff.mp h]
      rfl
  · rfl

/-- In the historical tier the emptiness guard tests the FULL list while the
batch runs on its 5-element prefix; both collapse the same way. -/
theorem batchIfTake_eq (outcome : PreciseGap → Except String Nat) (l : List PreciseGap) :
    (if l.isEmpty then ((⟨0, 0, []⟩ : BatchResults),
        ([] : List (PreciseGap × Except String Nat)))
      else fillGapsBatch outcome (l.take 5)) = fillGapsBatch outcome (l.take 5) := by
  split
  · next h =>
      rw [List.isEmpty_iff.mp h]
      rfl
  · rfl

/-- Normal form of one remediation cycle: urgent batch, then recent batch,
then the first five historical gaps. -/
theorem executePrioritizedBackfill_eq (outcome : PreciseGap → Except String Nat)
    (c : ClassifiedGaps) :
    executePrioritizedBackfill outcome c =
      ({ urgent_completed := (fillGapsBatch outcome c.urgent).1.completed
         recent_completed := (fillGapsBatch outcome c.recent).1.completed
         historical_completed := (fillGapsBatch outcome (c.historical.take 5)).1.completed
         total_records_filled := (fillGapsBatch outcome c.urgent).1.records_filled
           + (fillGapsBatch outcome c.recent).1.records_filled
           + (fillGapsBatch outcome (c.historical.take 5)).1.records_filled
         errors := (fillGapsBatch outcome c.urgent).1.errors
           ++ (fillGapsBatch outcome c.recent).1.errors
           ++ (fillGapsBatch outcome (c.historical.take 5)).1.errors },
       (fillGapsBatch outcome c.urgent).2 ++ (fillGapsBatch outcome c.recent).2
         ++ (fillGapsBatch outcome (c.historical.take 5)).2) := by
  unfold executePrioritizedBackfill
  rw [batchIf_eq, batchIf_eq, batchIfTake_eq]

/-- C3: in every cycle the attempted gaps, in execution order, are exactly the
urgent tier, then the recent tier, then the historical tier truncated to its
first 5 gaps: no later-tier gap is attempted before the whole earlier tier has
been driven to its terminal outcome, and the historical tier is capped at 5
tasks per cycle (the code's fixed `[:5]` slice), the excess being left
unattempted for re-detection. -/
theorem executePrioritizedBackfill_tier_order_and_cap
    (outcome : PreciseGap → Except String Nat) (gaps : List PreciseGap) :
    ((executePrioritizedBackfill outcome (classifyGapsByPriority gaps)).2.map Prod.fst
        = (classifyGapsByPriority gaps).urgent ++ ((classifyGapsByPriority gaps).recent
            ++ (classifyGapsByPriority gaps).historical.take 5))
      ∧ ((executePrioritizedBackfill outcome (classifyGapsByPriority gaps)).2).length
        ≤ (classifyGapsByPriority gaps).urgent.length
            + (classifyGapsByPriority gaps).recent.length + 5 := by
  rw [executePrioritizedBackfill_eq]
  constructor
  · rw [List.map_append, List.map_append]
    rw [fillGapsBatch_trace, fillGapsBatch_trace, fillGapsBatch_trace]
    rw [List.map_map, List.map_map, List.map_map]
    have hcomp : (Prod.fst ∘ fun g : PreciseGap => (g, outcome g)) = id := rfl
    rw [hcomp, List.map_id, List.map_id, List.map_id, List.append_assoc]
  · simp only [List.length_append, fillGapsBatch_trace, List.length_map]
    have h5 : ((classifyGapsByPriority gaps).historical.take 5).length ≤ 5 := by
      rw [List.length_take]
      exact min_le_left _ _
    omega

/-- C7: failures are isolated at the gap granularity.  For every provider
behaviour and every classified gap set, all urgent gaps, all recent gaps and
the five scheduled historical gaps are attempted — whatever errors the other
gaps raise — the cycle's errors list records exactly one entry per failing
attempted gap, in tier order, and the per-tier completion counters count
exactly the succeeding gaps of that tier. -/
theorem executePrioritizedBackfill_failure_isolation
    (outcome : PreciseGap → Except String Nat) (c : ClassifiedGaps) :
    (∀ g ∈ c.urgent, (g, outcome g) ∈ (executePrioritizedBackfill outcome c).2)
      ∧ (∀ g ∈ c.recent, (g, outcome g) ∈ (executePrioritizedBackfill outcome c).2)
      ∧ (∀ g ∈ c.historical.take 5, (g, outcome g) ∈ (executePrioritizedBackfill outcome c).2)
      ∧ (executePrioritizedBackfill outcome c).1.errors
        = c.urgent.filterMap (errOf outcome) ++ (c.recent.filterMap (errOf outcome)
            ++ (c.historical.take 5).filterMap (errOf outcome))
      ∧ (executePrioritizedBackfill outcome c).1.urgent_completed
        = (c.urgent.filter (fun g => (outcome g).isOk)).length
      ∧ (executePrioritizedBackfill outcome c).1.recent_completed
        = (c.recent.filter (fun g => (outcome g).isOk)).length
      ∧ (executePrioritizedBackfill outcome c).1.historical_completed
        = ((c.historical.take 5).filter (fun g => (outcome g).isOk)).length := by
  rw [executePrioritizedBackfill_eq]
  refine ⟨?_, ?_, ?_, ?_, ?_, ?_, ?_⟩
  · intro g hg
    simp only [List.mem_append, fillGapsBatch_trace]
    exact Or.inl (Or.inl (List.mem_map.mpr ⟨g, hg, rfl⟩))
  · intro g hg
    simp only [List.mem_append, fillGapsBatch_trace]
    exact Or.inl (Or.inr (List.mem_map.mpr ⟨g, hg, rfl⟩))
  · intro g hg
    simp only [List.mem_append, fillGapsBatch_trace]
    exact Or.inr (List.mem_map.mpr ⟨g, hg, rfl⟩)
  · simp [fillGapsBatch_errors]
  · exact fillGapsBatch_completed outcome c.urgent
  · exact fillGapsBatch_completed outcome c.recent
  · exact fillGapsBatch_completed outcome (c.historical.take 5)

/-- C7 witness: with one urgent gap whose fill raises and one recent gap whose
fill succeeds, the recent gap is still attempted and the failure is recorded
as exactly one error entry. -/
theorem executePrioritizedBackfill_failure_isolation_witness :
    sampleGapOk ∈ [sampleGapOk]
      ∧ (sampleGapOk, sampleOutcome sampleGapOk)
        ∈ (executePrioritizedBackfill sampleOutcome ⟨[sampleGapFail], [sampleGapOk], []⟩).2 := by
  have hmem : sampleGapOk ∈ [sampleGapOk] := List.mem_singleton.mpr rfl
  exact ⟨hmem,
    (executePrioritizedBackfill_failure_isolation sampleOutcome
      ⟨[sampleGapFail], [sampleGapOk], []⟩).2.1 sampleGapOk hmem⟩

/-! ## C10 — startup scenario default window -/

/-- Summing a constant over a list multiplies it by the length. -/
theorem sum_map_const_len (l : List String) (k : ℕ) :
    (l.map (fun _ => k)).sum = l.length * k := by
  induction l with
  | nil => simp
  | cons a t ih => simp [ih, Nat.succ_mul, Nat.add_comm]

/-- C10: when no checkpoint record exists, `_get_last_check_time` falls back
to 24 hours before now, and the Startup scenario synthesizes exactly one gap
per monitored (symbol, interval) pair, each spanning exactly
`[now - 24h, now)` — neither unbounded nor absent. -/
theorem detectStartupGaps_default_window (now : Int) (symbols intervals : List String) :
    (∀ g ∈ detectStartupGaps symbols intervals (some (getLastCheckTime none now)) now,
        g.start_time = now - 86400 ∧ g.end_time = now)
      ∧ (detectStartupGaps symbols intervals (some (getLastCheckTime none now)) now).length
        = symbols.length * intervals.length := by
  constructor
  · intro g hg
    simp only [detectStartupGaps, getLastCheckTime, List.mem_flatMap, List.mem_map] at hg
    obtain ⟨s, hs, i, hi, hgi⟩ := hg
    subst hgi
    constructor
    · show (createGap s i (now - 24 * 3600) now).start_time = now - 86400
      simp only [createGap]
      norm_num
    · rfl
  · simp only [detectStartupGaps, getLastCheckTime]
    rw [List.length_flatMap]
    simp only [Function.comp_def, List.length_map]
    exact sum_map_const_len symbols intervals.length

/-- C10 witness: one symbol and one interval at `now = 1000000`. -/
theorem detectStartupGaps_default_window_witness :
    ({ createGap "BTC-USDT-PERP" "1m" (getLastCheckTime none 1000000) 1000000 with
        priority := min 10
          ((createGap "BTC-USDT-PERP" "1m" (getLastCheckTime none 1000000) 1000000).priority + 2) }
        ∈ detectStartupGaps ["BTC-USDT-PERP"] ["1m"] (some (getLastCheckTime none 1000000)) 1000000)
      ∧ ({ createGap "BTC-USDT-PERP" "1m" (getLastCheckTime none 1000000) 1000000 with
            priority := min 10
              ((createGap "BTC-USDT-PERP" "1m"
                (getLastCheckTime none 1000000) 1000000).priority + 2) }).start_time
          = 1000000 - 86400 := by
  have hlist : detectStartupGaps ["BTC-USDT-PERP"] ["1m"]
      (some (getLastCheckTime none 1000000)) 1000000
      = [{ createGap "BTC-USDT-PERP" "1m" (getLastCheckTime none 1000000) 1000000 with
          priority := min 10
            ((createGap "BTC-USDT-PERP" "1m"
              (getLastCheckTime none 1000000) 1000000).priority + 2) }] := rfl
  have hmem : ({ createGap "BTC-USDT-PERP" "1m" (getLastCheckTime none 1000000) 1000000 with
      priority := min 10
        ((createGap "BTC-USDT-PERP" "1m" (getLastCheckTime none 1000000) 1000000).priority + 2) }
      ∈ detectStartupGaps ["BTC-USDT-PERP"] ["1m"] (some (getLastCheckTime none 1000000)) 1000000) := by
    rw [hlist]
    exact List.mem_singleton.mpr rfl
  exact ⟨hmem,
    ((detectStartupGaps_default_window 1000000 ["BTC-USDT-PERP"] ["1m"]).1 _ hmem).1⟩

end Cryptofeed
